import Mathlib

/- Shallow embedding of the R-Talks event-ticketing backend:
   the order/payment workflow of src/server.js (order creation,
   manual signature verification, redirect reconciliation, webhook
   reconciliation) and the admin catalog CRUD of routes/admin.js.
   The orders table is a list of rows; SQL UPDATE statements become
   list maps; the Razorpay HMAC-SHA256 digest and the external
   express-validator email check are abstract function parameters. -/

/-- Row of the orders table (src/database.sql). -/
structure OrderRow where
  id : String
  customer_name : String
  customer_email : String
  customer_phone : String
  package_name : String
  amount : ℚ
  status : String
  payment_id : Option String
  created_at : String
deriving DecidableEq

/-- Lookup of an order row by id (SELECT ... WHERE id = $n, first match). -/
def findOrder (store : List OrderRow) (oid : String) : Option OrderRow :=
  store.find? (fun o => o.id == oid)

/-- Effect of UPDATE orders SET status = 'completed', payment_id = $2 WHERE id = $3,
the one statement shared by all three completion channels in src/server.js. -/
def completeOrder (store : List OrderRow) (oid : String) (pid : Option String) :
    List OrderRow :=
  store.map (fun o =>
    if o.id == oid then { o with status := "completed", payment_id := pid } else o)

/-- Effect of UPDATE orders SET payment_id = $1 WHERE id = $2 run during order
creation after the payment link is obtained. -/
def setPaymentId (store : List OrderRow) (oid : String) (pid : String) :
    List OrderRow :=
  store.map (fun o => if o.id == oid then { o with payment_id := some pid } else o)

/-- Response of POST /api/verify-payment. -/
inductive VerifyResult where
  | success
  | invalidSignature
  | serverError
deriving DecidableEq

/-- POST /api/verify-payment (src/server.js lines 503-526). The parameter
secret is RAZORPAY_KEY_SECRET; none models an absent environment variable,
where crypto.createHmac throws on an undefined key and the catch block
answers 500 with no query executed. The parameter hmac abstracts the
HMAC-SHA256 hex digest with a given key over a given message. -/
def verifyPayment (secret : Option String) (hmac : String → String → String)
    (orderId paymentId signature : String) (store : List OrderRow) :
    VerifyResult × List OrderRow :=
  match secret with
  | none => (VerifyResult.serverError, store)
  | some key =>
    let expectedSignature := hmac key (orderId ++ "|" ++ paymentId)
    if expectedSignature == signature then
      (VerifyResult.success, completeOrder store orderId (some paymentId))
    else
      (VerifyResult.invalidSignature, store)

/-- Concrete stand-in digest function used only to instantiate witnesses. -/
def demoHmac (key msg : String) : String := key ++ ":" ++ msg

lemma findOrder_completeOrder (store : List OrderRow) (oid : String) (pid : Option String) :
    findOrder (completeOrder store oid pid) oid
      = (findOrder store oid).map
          (fun o => { o with status := "completed", payment_id := pid }) := by
  induction store with
  | nil => rfl
  | cons o rest ih =>
    by_cases h : o.id == oid
    · simp [findOrder, completeOrder, List.find?, h]
    · simp only [completeOrder, List.map] at ih ⊢
      simp [findOrder, List.find?, h] at ih ⊢
      exact ih

lemma findOrder_setPaymentId (store : List OrderRow) (oid : String) (pid : String) :
    findOrder (setPaymentId store oid pid) oid
      = (findOrder store oid).map (fun o => { o with payment_id := some pid }) := by
  induction store with
  | nil => rfl
  | cons o rest ih =>
    by_cases h : o.id == oid
    · simp [findOrder, setPaymentId, List.find?, h]
    · simp only [setPaymentId, List.map] at ih ⊢
      simp [findOrder, List.find?, h] at ih ⊢
      exact ih

lemma findOrder_append_fresh (store : List OrderRow) (row : OrderRow) (oid : String)
    (h : ∀ o ∈ store, (o.id == oid) = false) :
    findOrder (store ++ [row]) oid = if row.id == oid then some row else none := by
  induction store with
  | nil =>
    by_cases hr : row.id = oid
    · simp [findOrder, List.find?, hr]
    · simp [findOrder, List.find?, hr, beq_eq_false_iff_ne.mpr hr]
  | cons o rest ih =>
    have ho : (o.id == oid) = false := h o (by simp)
    have := ih (fun x hx => h x (by simp [hx]))
    simpa [findOrder, List.find?, ho] using this

/-- Claim C2: POST /api/verify-payment accepts (200, order set to completed with
payment_id recorded) iff the supplied signature equals the HMAC-SHA256 digest,
under the shared secret, of the literal concatenation orderId ++ "|" ++ paymentId;
any mismatch - in particular any mutated signature, or a mutated orderId or
paymentId whose digest differs - yields 400 'Invalid signature' and leaves the
store unchanged. -/
theorem verify_payment_signature_iff (hmac : String → String → String)
    (key orderId paymentId signature : String) (store : List OrderRow) :
    ((verifyPayment (some key) hmac orderId paymentId signature store).1
        = VerifyResult.success
      ↔ signature = hmac key (orderId ++ "|" ++ paymentId)) ∧
    (signature = hmac key (orderId ++ "|" ++ paymentId) →
      verifyPayment (some key) hmac orderId paymentId signature store
        = (VerifyResult.success, completeOrder store orderId (some paymentId))) ∧
    (signature ≠ hmac key (orderId ++ "|" ++ paymentId) →
      verifyPayment (some key) hmac orderId paymentId signature store
        = (VerifyResult.invalidSignature, store)) ∧
    (∀ sig' : String, sig' ≠ signature →
      signature = hmac key (orderId ++ "|" ++ paymentId) →
      verifyPayment (some key) hmac orderId paymentId sig' store
        = (VerifyResult.invalidSignature, store)) ∧
    (∀ oid' : String,
      hmac key (oid' ++ "|" ++ paymentId) ≠ hmac key (orderId ++ "|" ++ paymentId) →
      signature = hmac key (orderId ++ "|" ++ paymentId) →
      verifyPayment (some key) hmac oid' paymentId signature store
        = (VerifyResult.invalidSignature, store)) ∧
    (∀ pid' : String,
      hmac key (orderId ++ "|" ++ pid') ≠ hmac key (orderId ++ "|" ++ paymentId) →
      signature = hmac key (orderId ++ "|" ++ paymentId) →
      verifyPayment (some key) hmac orderId pid' signature store
        = (VerifyResult.invalidSignature, store)) := by
  refine ⟨?_, ?_, ?_, ?_, ?_, ?_⟩
  · by_cases h : hmac key (orderId ++ "|" ++ paymentId) == signature
    · simp only [verifyPayment, h, if_true]
      simp only [beq_iff_eq] at h
      simp [h.symm]
    · simp only [verifyPayment, h, if_false]
      simp only [beq_iff_eq] at h
      constructor
      · intro hc
        exact absurd hc (by simp)
      · intro hc
        exact absurd hc.symm h
  · intro h
    simp [verifyPayment, h]
  · intro h
    have : (hmac key (orderId ++ "|" ++ paymentId) == signature) = false := by
      simpa [beq_iff_eq] using fun hc => h hc.symm
    simp [verifyPayment, this]
  · intro sig' hne h
    have : (hmac key (orderId ++ "|" ++ paymentId) == sig') = false := by
      simp only [beq_eq_false_iff_ne, ne_eq]
      intro hc
      exact hne (hc ▸ h).symm
    simp [verifyPayment, this]
  · intro oid' hne h
    have : (hmac key (oid' ++ "|" ++ paymentId) == signature) = false := by
      simp only [beq_eq_false_iff_ne, ne_eq]
      intro hc
      exact hne (by rw [hc, h])
    simp [verifyPayment, this]
  · intro pid' hne h
    have : (hmac key (orderId ++ "|" ++ pid') == signature) = false := by
      simp only [beq_eq_false_iff_ne, ne_eq]
      intro hc
      exact hne (by rw [hc, h])
    simp [verifyPayment, this]

/-- Witness for claim C2 at concrete inputs with the stand-in digest. -/
theorem verify_payment_signature_iff_witness :
    verifyPayment (some "sec") demoHmac "42" "pay_1" (demoHmac "sec" ("42" ++ "|" ++ "pay_1")) []
      = (VerifyResult.success, completeOrder [] "42" (some "pay_1")) ∧
    verifyPayment (some "sec") demoHmac "42" "pay_1" "forged" []
      = (VerifyResult.invalidSignature, []) ∧
    verifyPayment (some "sec") demoHmac "43" "pay_1" (demoHmac "sec" ("42" ++ "|" ++ "pay_1")) []
      = (VerifyResult.invalidSignature, []) := by
  refine ⟨(verify_payment_signature_iff demoHmac "sec" "42" "pay_1"
            (demoHmac "sec" ("42" ++ "|" ++ "pay_1")) []).2.1 rfl,
          (verify_payment_signature_iff demoHmac "sec" "42" "pay_1" "forged" []).2.2.1
            (by decide),
          (verify_payment_signature_iff demoHmac "sec" "42" "pay_1"
            (demoHmac "sec" ("42" ++ "|" ++ "pay_1")) []).2.2.2.2.1 "43"
            (by decide) rfl⟩

/-- Claim C9: with RAZORPAY_KEY_SECRET absent, every call to
POST /api/verify-payment answers 500 with the store unchanged: the HMAC
computation throws before any comparison, so the endpoint can neither answer
400 'Invalid signature' nor mark any order completed. -/
theorem verify_payment_no_secret (hmac : String → String → String)
    (orderId paymentId signature : String) (store : List OrderRow) :
    verifyPayment none hmac orderId paymentId signature store
      = (VerifyResult.serverError, store) := by
  rfl

/-- Body of a POST /api/orders request. -/
structure OrderInput where
  name : String
  email : String
  phone : String
  package : String
  price : ℚ
deriving DecidableEq

/-- JS String.prototype.trim: drop whitespace from both ends. -/
def jsTrim (s : String) : String :=
  ⟨((s.data.dropWhile Char.isWhitespace).reverse.dropWhile Char.isWhitespace).reverse⟩

/-- Validator body('name').trim().isLength({min: 2, max: 100}); the trim
sanitizer runs first, so the length bound applies to the trimmed name. -/
def nameOk (name : String) : Bool :=
  decide (2 ≤ (jsTrim name).length ∧ (jsTrim name).length ≤ 100)

/-- Validator body('phone').matches(/^[\+]?[1-9][\d]\x7b0,15\x7d$/): an optional
leading plus, a first digit in 1-9, then up to fifteen further digits. -/
def phoneOk (phone : String) : Bool :=
  match phone.toList with
  | [] => false
  | c :: cs =>
    match (if c = '+' then cs else c :: cs) with
    | [] => false
    | d :: ds =>
      decide ('1' ≤ d ∧ d ≤ '9') && decide (ds.length ≤ 15) &&
        ds.all (fun x => decide ('0' ≤ x ∧ x ≤ '9'))

/-- Validator body('package').isIn(['Professional', 'Executive', 'Leadership']). -/
def packageOk (pkg : String) : Bool :=
  pkg == "Professional" || pkg == "Executive" || pkg == "Leadership"

/-- Validator body('price').isFloat({min: 0.01}). -/
def priceOk (price : ℚ) : Bool :=
  decide (1 / 100 ≤ price)

/-- The validateOrder middleware chain of src/server.js; isEmail abstracts the
external express-validator isEmail check. -/
def validateOrder (isEmail : String → Bool) (inp : OrderInput) : Bool :=
  nameOk inp.name && isEmail inp.email && phoneOk inp.phone &&
    packageOk inp.package && priceOk inp.price

/-- Per-field entries of errors.array(), one entry with the withMessage text
for each validator in the chain that failed. -/
def validationDetails (isEmail : String → Bool) (inp : OrderInput) :
    List (String × String) :=
  (if nameOk inp.name then [] else
    [("name", "Name must be between 2 and 100 characters")]) ++
  (if isEmail inp.email then [] else [("email", "Invalid email format")]) ++
  (if phoneOk inp.phone then [] else [("phone", "Invalid phone number format")]) ++
  (if packageOk inp.package then [] else [("package", "Invalid package selection")]) ++
  (if priceOk inp.price then [] else [("price", "Invalid price")])

/-- Outcome of the razorpay.paymentLink.create call: the client is not
configured at all, the call threw (network/auth error, caught and swallowed),
or it returned a link id and short url. -/
inductive ProviderOutcome where
  | notConfigured
  | failure
  | success (linkId : String) (shortUrl : String)
deriving DecidableEq

/-- Response of POST /api/orders: a 400 validation error with per-field
details, or the 200 JSON body. -/
inductive CreateResult where
  | validationError (details : List (String × String))
  | ok (orderId : String) (paymentLink : Option String)
       (razorpayOrderId : Option String) (amount : ℚ) (testMode : Bool)
deriving DecidableEq

/-- Row written by INSERT INTO orders (customer_name, customer_email,
customer_phone, package_name, amount, status) VALUES ($1,...,'pending');
the trim and normalizeEmail sanitizers have already mutated the body. -/
def newOrderRow (normalizeEmail : String → String) (inp : OrderInput)
    (newId today : String) : OrderRow :=
  { id := newId
    customer_name := jsTrim inp.name
    customer_email := normalizeEmail inp.email
    customer_phone := inp.phone
    package_name := inp.package
    amount := inp.price
    status := "pending"
    payment_id := none
    created_at := today }

/-- POST /api/orders handler (src/server.js lines 394-500): validation, insert
with status 'pending', optional payment-link request whose failure is caught
and swallowed, commit, 200 response. newId is the SERIAL id the insert
returns; today is the created_at date. -/
def createOrder (isEmail : String → Bool) (normalizeEmail : String → String)
    (inp : OrderInput) (provider : ProviderOutcome) (newId : String)
    (store : List OrderRow) (today : String) : CreateResult × List OrderRow :=
  if validateOrder isEmail inp then
    match provider with
    | ProviderOutcome.notConfigured =>
        (CreateResult.ok newId none none inp.price true,
         store ++ [newOrderRow normalizeEmail inp newId today])
    | ProviderOutcome.failure =>
        (CreateResult.ok newId none none inp.price false,
         store ++ [newOrderRow normalizeEmail inp newId today])
    | ProviderOutcome.success linkId shortUrl =>
        (CreateResult.ok newId (some shortUrl) (some linkId) inp.price false,
         setPaymentId (store ++ [newOrderRow normalizeEmail inp newId today]) newId linkId)
  else
    (CreateResult.validationError (validationDetails isEmail inp), store)

/-- Concrete stand-in for the external isEmail check, used in witnesses. -/
def demoIsEmail (e : String) : Bool := e == "jane@x.com"

/-- Valid order input from testable property 5 of the spec. -/
def goodInput : OrderInput :=
  { name := "Jane Doe", email := "jane@x.com", phone := "+919999999999",
    package := "Professional", price := 299 }

/-- Input failing every validator in the chain. -/
def badInput : OrderInput :=
  { name := "J", email := "nope", phone := "02", package := "Gold", price := 0 }

lemma goodInput_valid : validateOrder demoIsEmail goodInput = true := by
  have hp : priceOk goodInput.price = true := by
    simp only [priceOk, decide_eq_true_eq]
    norm_num [goodInput]
  simp [validateOrder, hp, show nameOk goodInput.name = true from rfl,
    show demoIsEmail goodInput.email = true from rfl,
    show phoneOk goodInput.phone = true from rfl,
    show packageOk goodInput.package = true from rfl]

lemma badInput_invalid : validateOrder demoIsEmail badInput = false := rfl

lemma badInput_details : validationDetails demoIsEmail badInput
    = [("name", "Name must be between 2 and 100 characters"),
       ("email", "Invalid email format"),
       ("phone", "Invalid phone number format"),
       ("package", "Invalid package selection"),
       ("price", "Invalid price")] := by
  have hp : priceOk badInput.price = false := by
    simp only [priceOk, decide_eq_false_iff_not, not_le]
    norm_num [badInput]
  simp [validationDetails, hp, show nameOk badInput.name = false from rfl,
    show demoIsEmail badInput.email = false from rfl,
    show phoneOk badInput.phone = false from rfl,
    show packageOk badInput.package = false from rfl]

/-- Claim C1: for every order-creation request that passes validation, the
inserted order row has status 'pending' whatever the payment-provider outcome;
when the provider call fails the order stays 'pending' with a null payment_id
and the endpoint answers 200 with a null paymentLink instead of an error. -/
theorem order_created_pending
    (isEmail : String → Bool) (normalizeEmail : String → String)
    (inp : OrderInput) (newId today : String) (store : List OrderRow)
    (hv : validateOrder isEmail inp = true)
    (hfresh : ∀ o ∈ store, (o.id == newId) = false) :
    (∀ provider : ProviderOutcome, ∃ row,
        findOrder (createOrder isEmail normalizeEmail inp provider newId store today).2 newId
          = some row ∧ row.status = "pending") ∧
    (createOrder isEmail normalizeEmail inp ProviderOutcome.failure newId store today
       = (CreateResult.ok newId none none inp.price false,
          store ++ [newOrderRow normalizeEmail inp newId today])) ∧
    findOrder (createOrder isEmail normalizeEmail inp ProviderOutcome.failure newId store today).2 newId
      = some (newOrderRow normalizeEmail inp newId today) ∧
    (newOrderRow normalizeEmail inp newId today).status = "pending" ∧
    (newOrderRow normalizeEmail inp newId today).payment_id = none := by
  have hfind : findOrder (store ++ [newOrderRow normalizeEmail inp newId today]) newId
      = some (newOrderRow normalizeEmail inp newId today) := by
    rw [findOrder_append_fresh store _ newId hfresh]
    simp [newOrderRow]
  refine ⟨?_, ?_, ?_, rfl, rfl⟩
  · intro provider
    cases provider with
    | notConfigured =>
        exact ⟨newOrderRow normalizeEmail inp newId today,
          by simpa [createOrder, hv] using hfind, rfl⟩
    | failure =>
        exact ⟨newOrderRow normalizeEmail inp newId today,
          by simpa [createOrder, hv] using hfind, rfl⟩
    | success linkId shortUrl =>
        refine ⟨{ newOrderRow normalizeEmail inp newId today with payment_id := some linkId },
          ?_, rfl⟩
        simp only [createOrder, hv, if_true]
        rw [findOrder_setPaymentId, hfind]
        rfl
  · simp [createOrder, hv]
  · simp only [createOrder, hv, if_true]
    exact hfind

/-- Witness for claim C1: the spec's scenario 5 input with a failing provider
call yields a 200 response with null paymentLink and a pending row. -/
theorem order_created_pending_witness :
    (createOrder demoIsEmail (fun e => e) goodInput ProviderOutcome.failure "1" [] "2025-10-12"
       = (CreateResult.ok "1" none none goodInput.price false,
          [newOrderRow (fun e => e) goodInput "1" "2025-10-12"])) ∧
    (newOrderRow (fun e => e) goodInput "1" "2025-10-12").status = "pending" ∧
    (newOrderRow (fun e => e) goodInput "1" "2025-10-12").payment_id = none := by
  have h := order_created_pending demoIsEmail (fun e => e) goodInput "1" "2025-10-12" []
    goodInput_valid (by simp)
  exact ⟨by simpa using h.2.1, h.2.2.2.1, h.2.2.2.2⟩

/-- Claim C8 (amended): POST /api/orders answers a structured 400 with
per-field messages iff some validator fails - trimmed name length outside
2-100, the email check failing, phone not matching the digit pattern, package
outside the three tier names, or price below the 0.01 validator floor - and
on a validation failure no order row is inserted. -/
theorem order_validation_400_iff
    (isEmail : String → Bool) (normalizeEmail : String → String)
    (inp : OrderInput) (provider : ProviderOutcome) (newId today : String)
    (store : List OrderRow) :
    (validateOrder isEmail inp = false ↔
      (nameOk inp.name = false ∨ isEmail inp.email = false ∨ phoneOk inp.phone = false ∨
       packageOk inp.package = false ∨ inp.price < 1 / 100)) ∧
    (validateOrder isEmail inp = false →
      createOrder isEmail normalizeEmail inp provider newId store today
        = (CreateResult.validationError (validationDetails isEmail inp), store)) ∧
    (validateOrder isEmail inp = true →
      ∀ d, (createOrder isEmail normalizeEmail inp provider newId store today).1
        ≠ CreateResult.validationError d) := by
  have hprice : (priceOk inp.price = false) ↔ inp.price < 1 / 100 := by
    simp [priceOk, not_le]
  refine ⟨?_, ?_, ?_⟩
  · rw [← hprice]
    cases hn : nameOk inp.name <;> cases he : isEmail inp.email <;>
      cases hp : phoneOk inp.phone <;> cases hk : packageOk inp.package <;>
      cases hq : priceOk inp.price <;> simp [validateOrder, hn, he, hp, hk, hq]
  · intro h
    simp [createOrder, h]
  · intro h d
    cases provider <;> simp [createOrder, h]

/-- Witness for claim C8: an input failing every check yields the structured
400 with one message per field and no insertion, and a fully valid input is
never answered with a validation error. -/
theorem order_validation_400_iff_witness :
    (createOrder demoIsEmail (fun e => e) badInput ProviderOutcome.notConfigured "1" [] "2025-10-12"
       = (CreateResult.validationError
            [("name", "Name must be between 2 and 100 characters"),
             ("email", "Invalid email format"),
             ("phone", "Invalid phone number format"),
             ("package", "Invalid package selection"),
             ("price", "Invalid price")], [])) ∧
    (∀ d, (createOrder demoIsEmail (fun e => e) goodInput ProviderOutcome.notConfigured "1" [] "2025-10-12").1
       ≠ CreateResult.validationError d) := by
  constructor
  · exact ((order_validation_400_iff demoIsEmail (fun e => e) badInput
      ProviderOutcome.notConfigured "1" "2025-10-12" []).2.1 badInput_invalid).trans
      (by rw [badInput_details])
  · intro d
    exact (order_validation_400_iff demoIsEmail (fun e => e) goodInput
      ProviderOutcome.notConfigured "1" "2025-10-12" []).2.2 goodInput_valid d

/-- Concrete order input whose price is strictly positive yet below the 0.01
floor that isFloat({min: 0.01}) enforces. -/
def tinyPriceInput : OrderInput :=
  { name := "Jane Doe", email := "jane@x.com", phone := "+919999999999",
    package := "Professional", price := 1 / 200 }

/-- Counterexample to claim C8 as stated: a request whose price is strictly
positive - so by the claim no precondition fails - is still answered with the
400 validation error, because the validator requires price at least 0.01. -/
theorem order_validation_strict_positivity_counterexample :
    0 < tinyPriceInput.price ∧
    nameOk tinyPriceInput.name = true ∧
    phoneOk tinyPriceInput.phone = true ∧
    packageOk tinyPriceInput.package = true ∧
    (createOrder (fun _ => true) (fun e => e) tinyPriceInput
        ProviderOutcome.notConfigured "1" [] "2025-10-12").1
      = CreateResult.validationError [("price", "Invalid price")] := by
  have hp : priceOk tinyPriceInput.price = false := by
    simp only [priceOk, decide_eq_false_iff_not, not_le]
    norm_num [tinyPriceInput]
  have hv : validateOrder (fun _ => true) tinyPriceInput = false := by
    simp [validateOrder, hp]
  have hd : validationDetails (fun _ => true) tinyPriceInput
      = [("price", "Invalid price")] := by
    simp [validationDetails, hp, show nameOk tinyPriceInput.name = true from rfl,
      show phoneOk tinyPriceInput.phone = true from rfl,
      show packageOk tinyPriceInput.package = true from rfl]
  refine ⟨by norm_num [tinyPriceInput], rfl, rfl, rfl, ?_⟩
  simp [createOrder, hv, hd]

/-- Query parameters of GET /api/payment-success; none models an absent
parameter (undefined in the handler). -/
structure RedirectQuery where
  order_id : Option String
  razorpay_payment_id : Option String
  razorpay_payment_link_id : Option String
  razorpay_payment_link_status : Option String
deriving DecidableEq

/-- JS truthiness of a possibly-undefined string value. -/
def truthy : Option String → Bool
  | none => false
  | some s => !(s == "")

/-- JS a || b over possibly-undefined string values. -/
def jsOr (a b : Option String) : Option String :=
  if truthy a then a else b

/-- Template-literal rendering of a possibly-undefined value. -/
def jsStr : Option String → String
  | none => "undefined"
  | some s => s

/-- GET /api/payment-success (src/server.js lines 573-596). Returns the
redirect target and the updated store; dbOk false models the UPDATE query
throwing, which the catch block turns into the error redirect. -/
def paymentSuccess (frontendUrl : String) (q : RedirectQuery) (dbOk : Bool)
    (store : List OrderRow) : String × List OrderRow :=
  if (q.razorpay_payment_link_status == some "paid") && truthy q.order_id then
    if dbOk then
      (frontendUrl ++ "/?payment=success&order=" ++ jsStr q.order_id,
       completeOrder store (jsStr q.order_id)
         (jsOr q.razorpay_payment_id q.razorpay_payment_link_id))
    else
      (frontendUrl ++ "/?payment=error&order=" ++ jsStr q.order_id, store)
  else
    (frontendUrl ++ "/?payment=failed&order=" ++ jsStr q.order_id, store)

/-- The notes object attached to a payment link at creation time. -/
structure NotesObj where
  order_id : Option String
deriving DecidableEq

/-- The payment_link object of a webhook payload. -/
structure PaymentLinkObj where
  notes : Option NotesObj
deriving DecidableEq

/-- The payment object of a webhook payload. -/
structure PaymentObj where
  id : String
deriving DecidableEq

/-- Webhook payload envelope; the optional fields model properties that may
be absent from the posted JSON. -/
structure WebhookPayload where
  payment_link : Option PaymentLinkObj
  payment : Option PaymentObj
deriving DecidableEq

/-- Response of POST /api/razorpay-webhook: 200 with status ok, or the 500
produced by the catch block. -/
inductive WebhookResult where
  | ok
  | error500
deriving DecidableEq

/-- POST /api/razorpay-webhook (src/server.js lines 599-620). A paid event
whose payload, payment_link, or (when an order id is present) payment object
is missing throws while destructuring or dereferencing and is answered 500;
every other path answers 200 with status ok. -/
def razorpayWebhook (event : Option String) (payload : Option WebhookPayload)
    (store : List OrderRow) : WebhookResult × List OrderRow :=
  if event == some "payment_link.paid" then
    match payload with
    | none => (WebhookResult.error500, store)
    | some p =>
      match p.payment_link with
      | none => (WebhookResult.error500, store)
      | some pl =>
        if truthy (pl.notes.bind NotesObj.order_id) then
          match p.payment with
          | none => (WebhookResult.error500, store)
          | some pay =>
            (WebhookResult.ok,
             completeOrder store (jsStr (pl.notes.bind NotesObj.order_id)) (some pay.id))
        else (WebhookResult.ok, store)
  else (WebhookResult.ok, store)

/-- Claim C4: the redirect callback completes the order and redirects with a
success flag exactly when the reported link status is paid and an order id is
present; any other link status redirects with a failure flag and leaves the
store unchanged; an exception on the paid path redirects with an error flag
and leaves the store unchanged. -/
theorem payment_success_redirects (frontendUrl : String) (q : RedirectQuery)
    (dbOk : Bool) (store : List OrderRow) :
    (q.razorpay_payment_link_status = some "paid" → truthy q.order_id = true →
      paymentSuccess frontendUrl q true store
        = (frontendUrl ++ "/?payment=success&order=" ++ jsStr q.order_id,
           completeOrder store (jsStr q.order_id)
             (jsOr q.razorpay_payment_id q.razorpay_payment_link_id))) ∧
    (q.razorpay_payment_link_status ≠ some "paid" →
      paymentSuccess frontendUrl q dbOk store
        = (frontendUrl ++ "/?payment=failed&order=" ++ jsStr q.order_id, store)) ∧
    (truthy q.order_id = false →
      paymentSuccess frontendUrl q dbOk store
        = (frontendUrl ++ "/?payment=failed&order=" ++ jsStr q.order_id, store)) ∧
    (q.razorpay_payment_link_status = some "paid" → truthy q.order_id = true →
      paymentSuccess frontendUrl q false store
        = (frontendUrl ++ "/?payment=error&order=" ++ jsStr q.order_id, store)) := by
  refine ⟨?_, ?_, ?_, ?_⟩
  · intro hs ho
    simp [paymentSuccess, hs, ho]
  · intro hs
    have : (q.razorpay_payment_link_status == some "paid") = false :=
      beq_eq_false_iff_ne.mpr hs
    simp [paymentSuccess, this]
  · intro ho
    simp [paymentSuccess, ho]
  · intro hs ho
    simp [paymentSuccess, hs, ho]

/-- Witness for claim C4: the spec's scenario 7 inputs, paid and cancelled. -/
theorem payment_success_redirects_witness :
    paymentSuccess "https://x" ⟨some "42", some "pay_abc", none, some "paid"⟩ true []
      = ("https://x/?payment=success&order=42", completeOrder [] "42" (some "pay_abc")) ∧
    paymentSuccess "https://x" ⟨some "42", some "pay_abc", none, some "cancelled"⟩ true []
      = ("https://x/?payment=failed&order=42", []) ∧
    paymentSuccess "https://x" ⟨some "42", some "pay_abc", none, some "paid"⟩ false []
      = ("https://x/?payment=error&order=42", []) := by
  refine ⟨?_, ?_, ?_⟩
  · exact ((payment_success_redirects "https://x"
      ⟨some "42", some "pay_abc", none, some "paid"⟩ true []).1 rfl (by decide)).trans
      (by decide)
  · exact ((payment_success_redirects "https://x"
      ⟨some "42", some "pay_abc", none, some "cancelled"⟩ true []).2.1 (by decide)).trans
      (by decide)
  · exact ((payment_success_redirects "https://x"
      ⟨some "42", some "pay_abc", none, some "paid"⟩ false []).2.2.2 rfl (by decide)).trans
      (by decide)

/-- Claim C5: POST /api/razorpay-webhook acts only on the payment_link.paid
event; when that event carries a truthy order id in the payment link notes it
completes the matching order with the payment object's id; every
non-exceptional path answers 200 with status ok whether or not any order
matched, and the exception paths answer 500 with no store change. -/
theorem webhook_reconciliation (event : Option String)
    (payload : Option WebhookPayload) (store : List OrderRow) :
    (event ≠ some "payment_link.paid" →
      razorpayWebhook event payload store = (WebhookResult.ok, store)) ∧
    (∀ p pl pay oid, payload = some p → p.payment_link = some pl →
      pl.notes.bind NotesObj.order_id = some oid → oid ≠ "" → p.payment = some pay →
      razorpayWebhook (some "payment_link.paid") payload store
        = (WebhookResult.ok, completeOrder store oid (some pay.id))) ∧
    (∀ p pl, payload = some p → p.payment_link = some pl →
      truthy (pl.notes.bind NotesObj.order_id) = false →
      razorpayWebhook (some "payment_link.paid") payload store
        = (WebhookResult.ok, store)) ∧
    (payload = none →
      razorpayWebhook (some "payment_link.paid") payload store
        = (WebhookResult.error500, store)) ∧
    (∀ p, payload = some p → p.payment_link = none →
      razorpayWebhook (some "payment_link.paid") payload store
        = (WebhookResult.error500, store)) ∧
    (∀ p pl, payload = some p → p.payment_link = some pl →
      truthy (pl.notes.bind NotesObj.order_id) = true → p.payment = none →
      razorpayWebhook (some "payment_link.paid") payload store
        = (WebhookResult.error500, store)) := by
  refine ⟨?_, ?_, ?_, ?_, ?_, ?_⟩
  · intro he
    have : (event == some "payment_link.paid") = false := beq_eq_false_iff_ne.mpr he
    simp [razorpayWebhook, this]
  · intro p pl pay oid hp hpl hoid hne hpay
    have ht : truthy (some oid) = true := by simpa [truthy] using hne
    simp [razorpayWebhook, hp, hpl, hpay, hoid, ht, jsStr]
  · intro p pl hp hpl ht
    simp [razorpayWebhook, hp, hpl, ht]
  · intro hp
    simp [razorpayWebhook, hp]
  · intro p hp hpl
    simp [razorpayWebhook, hp, hpl]
  · intro p pl hp hpl ht hpay
    simp [razorpayWebhook, hp, hpl, ht, hpay]

/-- Witness for claim C5: the spec's scenario 6 webhook against a pending
order 42 completes it with payment id pay_abc and answers ok, and an
unrelated event leaves the store alone. -/
theorem webhook_reconciliation_witness :
    razorpayWebhook (some "payment_link.paid")
        (some ⟨some ⟨some ⟨some "42"⟩⟩, some ⟨"pay_abc"⟩⟩)
        [{ id := "42", customer_name := "Jane Doe", customer_email := "jane@x.com",
           customer_phone := "+919999999999", package_name := "Professional",
           amount := 299, status := "pending", payment_id := none,
           created_at := "2025-10-12" }]
      = (WebhookResult.ok,
         [{ id := "42", customer_name := "Jane Doe", customer_email := "jane@x.com",
            customer_phone := "+919999999999", package_name := "Professional",
            amount := 299, status := "completed", payment_id := some "pay_abc",
            created_at := "2025-10-12" }]) ∧
    razorpayWebhook (some "payment.captured")
        (some ⟨some ⟨some ⟨some "42"⟩⟩, some ⟨"pay_abc"⟩⟩) []
      = (WebhookResult.ok, []) := by
  constructor
  · refine ((webhook_reconciliation (some "payment_link.paid")
      (some ⟨some ⟨some ⟨some "42"⟩⟩, some ⟨"pay_abc"⟩⟩) _).2.1
      ⟨some ⟨some ⟨some "42"⟩⟩, some ⟨"pay_abc"⟩⟩ ⟨some ⟨some "42"⟩⟩ ⟨"pay_abc"⟩ "42"
      rfl rfl rfl (by decide) rfl).trans ?_
    simp [completeOrder]
  · exact (webhook_reconciliation (some "payment.captured")
      (some ⟨some ⟨some ⟨some "42"⟩⟩, some ⟨"pay_abc"⟩⟩) []).1 (by decide)

/-- Order row already completed by an earlier channel, used in witnesses. -/
def completedOrder42 : OrderRow :=
  { id := "42", customer_name := "Jane Doe", customer_email := "jane@x.com",
    customer_phone := "+919999999999", package_name := "Professional",
    amount := 299, status := "completed", payment_id := some "pay_old",
    created_at := "2025-10-12" }

/-- Claim C3: each completion channel - manual verify with a valid signature,
redirect callback with link status paid, webhook payment_link.paid event -
unconditionally writes status completed and overwrites payment_id for an
order in any current status (the row o is arbitrary, in particular already
completed), and when two channels fire in sequence both succeed and the
last-written payment_id stands. -/
theorem completion_channels_unguarded (hmac : String → String → String)
    (key oid pid1 pid2 frontendUrl : String) (store : List OrderRow) (o : OrderRow)
    (ho : findOrder store oid = some o) (hoid : oid ≠ "") (hpid1 : pid1 ≠ "") :
    (verifyPayment (some key) hmac oid pid1 (hmac key (oid ++ "|" ++ pid1)) store).1
      = VerifyResult.success ∧
    findOrder (verifyPayment (some key) hmac oid pid1
        (hmac key (oid ++ "|" ++ pid1)) store).2 oid
      = some { o with status := "completed", payment_id := some pid1 } ∧
    findOrder (paymentSuccess frontendUrl ⟨some oid, some pid1, none, some "paid"⟩
        true store).2 oid
      = some { o with status := "completed", payment_id := some pid1 } ∧
    (razorpayWebhook (some "payment_link.paid")
        (some ⟨some ⟨some ⟨some oid⟩⟩, some ⟨pid2⟩⟩) store).1 = WebhookResult.ok ∧
    findOrder (razorpayWebhook (some "payment_link.paid")
        (some ⟨some ⟨some ⟨some oid⟩⟩, some ⟨pid2⟩⟩) store).2 oid
      = some { o with status := "completed", payment_id := some pid2 } ∧
    findOrder (razorpayWebhook (some "payment_link.paid")
        (some ⟨some ⟨some ⟨some oid⟩⟩, some ⟨pid2⟩⟩)
        (paymentSuccess frontendUrl ⟨some oid, some pid1, none, some "paid"⟩
          true store).2).2 oid
      = some { o with status := "completed", payment_id := some pid2 } := by
  have htr : truthy (some oid) = true := by simpa [truthy] using hoid
  have hp1 : truthy (some pid1) = true := by simpa [truthy] using hpid1
  have hco : ∀ (st : List OrderRow) (ox : OrderRow) (pid : Option String),
      findOrder st oid = some ox →
      findOrder (completeOrder st oid pid) oid
        = some { ox with status := "completed", payment_id := pid } := by
    intro st ox pid hst
    rw [findOrder_completeOrder, hst]
    rfl
  have hverify : verifyPayment (some key) hmac oid pid1
      (hmac key (oid ++ "|" ++ pid1)) store
      = (VerifyResult.success, completeOrder store oid (some pid1)) := by
    simp [verifyPayment]
  have hredirect : (paymentSuccess frontendUrl ⟨some oid, some pid1, none, some "paid"⟩
      true store).2 = completeOrder store oid (some pid1) := by
    simp [paymentSuccess, htr, jsStr, jsOr, hp1]
  have hwebhook : ∀ st : List OrderRow,
      razorpayWebhook (some "payment_link.paid")
        (some ⟨some ⟨some ⟨some oid⟩⟩, some ⟨pid2⟩⟩) st
      = (WebhookResult.ok, completeOrder st oid (some pid2)) := by
    intro st
    simp [razorpayWebhook, htr, jsStr]
  refine ⟨by rw [hverify], ?_, ?_, by rw [hwebhook], ?_, ?_⟩
  · rw [hverify]
    exact hco store o (some pid1) ho
  · rw [hredirect]
    exact hco store o (some pid1) ho
  · rw [hwebhook]
    exact hco store o (some pid2) ho
  · rw [hwebhook, hredirect]
    exact hco _ { o with status := "completed", payment_id := some pid1 } (some pid2)
      (hco store o (some pid1) ho)

/-- Witness for claim C3: both the redirect and the webhook complete an order
that is already completed, and the webhook, firing last, leaves its payment
id in place. -/
theorem completion_channels_unguarded_witness :
    findOrder (razorpayWebhook (some "payment_link.paid")
        (some ⟨some ⟨some ⟨some "42"⟩⟩, some ⟨"pay_b"⟩⟩)
        (paymentSuccess "https://x" ⟨some "42", some "pay_a", none, some "paid"⟩
          true [completedOrder42]).2).2 "42"
      = some { completedOrder42 with status := "completed", payment_id := some "pay_b" } ∧
    (verifyPayment (some "sec") demoHmac "42" "pay_a"
        (demoHmac "sec" ("42" ++ "|" ++ "pay_a")) [completedOrder42]).1
      = VerifyResult.success := by
  have h := completion_channels_unguarded demoHmac "sec" "42" "pay_a" "pay_b" "https://x"
    [completedOrder42] completedOrder42 rfl (by decide) (by decide)
  exact ⟨h.2.2.2.2.2, h.1⟩

/-- Row of the event_packages table (src/database.sql). -/
structure PackageRow where
  id : Nat
  name : String
  category : String
  price : ℚ
  features : String
  package_type : String
  display_order : Int
  is_active : Bool
deriving DecidableEq

/-- Row of the speakers table (src/database.sql). -/
structure SpeakerRow where
  id : Nat
  name : String
  title : String
  company : String
  bio : String
  image_url : String
  display_order : Int
  is_active : Bool
deriving DecidableEq

/-- ORDER BY display_order, id on package rows. -/
def pkgLe (a b : PackageRow) : Prop :=
  a.display_order < b.display_order ∨
    (a.display_order = b.display_order ∧ a.id ≤ b.id)

/-- ORDER BY display_order, id on speaker rows. -/
def spkLe (a b : SpeakerRow) : Prop :=
  a.display_order < b.display_order ∨
    (a.display_order = b.display_order ∧ a.id ≤ b.id)

instance : DecidableRel pkgLe := fun a b =>
  inferInstanceAs (Decidable (a.display_order < b.display_order ∨
    (a.display_order = b.display_order ∧ a.id ≤ b.id)))

instance : DecidableRel spkLe := fun a b =>
  inferInstanceAs (Decidable (a.display_order < b.display_order ∨
    (a.display_order = b.display_order ∧ a.id ≤ b.id)))

instance : IsTrans PackageRow pkgLe :=
  ⟨fun a b c hab hbc => by unfold pkgLe at *; omega⟩

instance : IsTotal PackageRow pkgLe :=
  ⟨fun a b => by unfold pkgLe; omega⟩

instance : IsTrans SpeakerRow spkLe :=
  ⟨fun a b c hab hbc => by unfold spkLe at *; omega⟩

instance : IsTotal SpeakerRow spkLe :=
  ⟨fun a b => by unfold spkLe; omega⟩

/-- GET /api/packages (src/server.js): SELECT * FROM event_packages
WHERE is_active = true ORDER BY display_order, id. -/
def getPackagesPublic (ps : List PackageRow) : List PackageRow :=
  List.insertionSort pkgLe (ps.filter (fun r => r.is_active))

/-- GET /api/admin/packages (routes/admin.js): the same active-only query. -/
def getPackagesAdmin (ps : List PackageRow) : List PackageRow :=
  List.insertionSort pkgLe (ps.filter (fun r => r.is_active))

/-- GET /api/speakers (src/server.js): SELECT * FROM speakers
WHERE is_active = true ORDER BY display_order, id. -/
def getSpeakersPublic (ss : List SpeakerRow) : List SpeakerRow :=
  List.insertionSort spkLe (ss.filter (fun r => r.is_active))

/-- GET /api/admin/speakers (routes/admin.js): the same active-only query. -/
def getSpeakersAdmin (ss : List SpeakerRow) : List SpeakerRow :=
  List.insertionSort spkLe (ss.filter (fun r => r.is_active))

/-- DELETE /api/admin/packages/:id (routes/admin.js): UPDATE event_packages
SET is_active = false WHERE id = $1; a soft delete, no row is removed. -/
def deletePackage (ps : List PackageRow) (pid : Nat) : List PackageRow :=
  ps.map (fun r => if r.id == pid then { r with is_active := false } else r)

/-- DELETE /api/admin/speakers/:id (routes/admin.js): UPDATE speakers
SET is_active = false WHERE id = $1. -/
def deleteSpeaker (ss : List SpeakerRow) (sid : Nat) : List SpeakerRow :=
  ss.map (fun r => if r.id == sid then { r with is_active := false } else r)

/-- SQL MAX over a column: none on an empty table. -/
def maxDisplay : List Int → Option Int
  | [] => none
  | d :: ds =>
    match maxDisplay ds with
    | none => some d
    | some m => some (max d m)

/-- SELECT COALESCE(MAX(display_order), 0) + 1 FROM event_packages. -/
def nextDisplayOrderPkg (ps : List PackageRow) : Int :=
  (maxDisplay (ps.map PackageRow.display_order)).getD 0 + 1

/-- SELECT COALESCE(MAX(display_order), 0) + 1 FROM speakers. -/
def nextDisplayOrderSpk (ss : List SpeakerRow) : Int :=
  (maxDisplay (ss.map SpeakerRow.display_order)).getD 0 + 1

/-- POST /api/admin/packages (routes/admin.js): INSERT with the next display
order; is_active takes its column default true. -/
def createPackage (ps : List PackageRow) (newId : Nat) (name category : String)
    (price : ℚ) (features package_type : String) : List PackageRow :=
  ps ++ [{ id := newId, name := name, category := category, price := price,
           features := features, package_type := package_type,
           display_order := nextDisplayOrderPkg ps, is_active := true }]

/-- POST /api/admin/speakers (routes/admin.js): INSERT with the next display
order; is_active takes its column default true. -/
def createSpeaker (ss : List SpeakerRow) (newId : Nat)
    (name title company bio image_url : String) : List SpeakerRow :=
  ss ++ [{ id := newId, name := name, title := title, company := company,
           bio := bio, image_url := image_url,
           display_order := nextDisplayOrderSpk ss, is_active := true }]

/-- GET /api/admin/stats (routes/admin.js lines 263-293): total tickets and
revenue over orders with status completed, and today's sales over completed
orders created today. -/
def adminStats (store : List OrderRow) (today : String) : Nat × ℚ × Nat :=
  ((store.filter (fun o => o.status == "completed")).length,
   ((store.filter (fun o => o.status == "completed")).map OrderRow.amount).sum,
   ((store.filter (fun o => o.status == "completed")).filter
      (fun o => o.created_at == today)).length)

lemma le_maxDisplay (l : List Int) (x : Int) (hx : x ∈ l) :
    ∃ m, maxDisplay l = some m ∧ x ≤ m := by
  induction l with
  | nil => cases hx
  | cons d ds ih =>
    rcases List.mem_cons.mp hx with h | h
    · subst h
      cases hmd : maxDisplay ds with
      | none => exact ⟨x, by simp [maxDisplay, hmd], le_refl x⟩
      | some m => exact ⟨max x m, by simp [maxDisplay, hmd], le_max_left x m⟩
    · obtain ⟨m, hm, hxm⟩ := ih h
      exact ⟨max d m, by simp [maxDisplay, hm], le_trans hxm (le_max_right d m)⟩

lemma deletePackage_map_id (ps : List PackageRow) (pid : Nat) :
    (deletePackage ps pid).map PackageRow.id = ps.map PackageRow.id := by
  induction ps with
  | nil => rfl
  | cons r rest ih =>
    simp only [deletePackage, List.map_cons] at ih ⊢
    rw [ih]
    by_cases h : r.id == pid
    · simp [h]
    · simp [h]

lemma deleteSpeaker_map_id (ss : List SpeakerRow) (sid : Nat) :
    (deleteSpeaker ss sid).map SpeakerRow.id = ss.map SpeakerRow.id := by
  induction ss with
  | nil => rfl
  | cons r rest ih =>
    simp only [deleteSpeaker, List.map_cons] at ih ⊢
    rw [ih]
    by_cases h : r.id == sid
    · simp [h]
    · simp [h]

/-- Claim C6: deleting a package or speaker never removes the row - the id
column of the table is unchanged and every surviving row is an original row
with at most its is_active flag flipped to false - and the public and admin
list endpoints agree and return exactly the active rows, sorted by
display_order with ties broken by id, so an inactive row never appears. -/
theorem soft_delete_and_active_listing (ps : List PackageRow)
    (ss : List SpeakerRow) (pid sid : Nat) :
    ((deletePackage ps pid).map PackageRow.id = ps.map PackageRow.id) ∧
    (∀ r ∈ deletePackage ps pid, ∃ r0 ∈ ps,
        r = r0 ∨ r = { r0 with is_active := false }) ∧
    ((deleteSpeaker ss sid).map SpeakerRow.id = ss.map SpeakerRow.id) ∧
    (∀ r ∈ deleteSpeaker ss sid, ∃ r0 ∈ ss,
        r = r0 ∨ r = { r0 with is_active := false }) ∧
    getPackagesPublic ps = getPackagesAdmin ps ∧
    getSpeakersPublic ss = getSpeakersAdmin ss ∧
    List.Sorted pkgLe (getPackagesPublic ps) ∧
    List.Sorted spkLe (getSpeakersPublic ss) ∧
    (∀ r, r ∈ getPackagesPublic ps ↔ r ∈ ps ∧ r.is_active = true) ∧
    (∀ r, r ∈ getSpeakersPublic ss ↔ r ∈ ss ∧ r.is_active = true) ∧
    (∀ r ∈ getPackagesPublic ps, r.is_active = true) ∧
    (∀ r ∈ getSpeakersPublic ss, r.is_active = true) := by
  refine ⟨deletePackage_map_id ps pid, ?_, deleteSpeaker_map_id ss sid, ?_,
    rfl, rfl, ?_, ?_, ?_, ?_, ?_, ?_⟩
  · intro r hr
    obtain ⟨r0, hr0, hfr⟩ := List.mem_map.mp hr
    refine ⟨r0, hr0, ?_⟩
    by_cases h : r0.id == pid
    · right
      rw [← hfr]
      simp [h]
    · left
      rw [← hfr]
      simp [h]
  · intro r hr
    obtain ⟨r0, hr0, hfr⟩ := List.mem_map.mp hr
    refine ⟨r0, hr0, ?_⟩
    by_cases h : r0.id == sid
    · right
      rw [← hfr]
      simp [h]
    · left
      rw [← hfr]
      simp [h]
  · exact List.sorted_insertionSort pkgLe (ps.filter (fun r => r.is_active))
  · exact List.sorted_insertionSort spkLe (ss.filter (fun r => r.is_active))
  · intro r
    simp [getPackagesPublic, List.mem_filter]
  · intro r
    simp [getSpeakersPublic, List.mem_filter]
  · intro r hr
    simp only [getPackagesPublic, List.mem_insertionSort, List.mem_filter] at hr
    exact hr.2
  · intro r hr
    simp only [getSpeakersPublic, List.mem_insertionSort, List.mem_filter] at hr
    exact hr.2

/-- Active demo package row. -/
def pkgA : PackageRow :=
  { id := 1, name := "Professional", category := "standard", price := 299,
    features := "[]", package_type := "standard", display_order := 2,
    is_active := true }

/-- Soft-deleted demo package row with a smaller display order. -/
def pkgB : PackageRow :=
  { id := 2, name := "Executive", category := "standard", price := 599,
    features := "[]", package_type := "standard", display_order := 1,
    is_active := false }

/-- Witness for claim C6: the inactive row never appears in the public list
and the soft delete keeps both ids in the table. -/
theorem soft_delete_and_active_listing_witness :
    (¬ pkgB ∈ getPackagesPublic [pkgA, pkgB]) ∧
    (deletePackage [pkgA, pkgB] 1).map PackageRow.id = [1, 2] := by
  constructor
  · intro hmem
    exact absurd
      (((soft_delete_and_active_listing [pkgA, pkgB] [] 1 0).2.2.2.2.2.2.2.2.1 pkgB).mp
        hmem).2
      (by decide)
  · exact ((soft_delete_and_active_listing [pkgA, pkgB] [] 1 0).1).trans (by decide)

/-- Claim C7: creating a package or speaker assigns display_order equal to the
table maximum plus one, 1 on an empty table, and the new row lands strictly
after every existing row in the display ordering. -/
theorem create_appends_next_display_order (ps : List PackageRow)
    (ss : List SpeakerRow) (pnid snid : Nat) (pname pcategory : String)
    (pprice : ℚ) (pfeatures ptype : String)
    (sname stitle scompany sbio simage : String) :
    nextDisplayOrderPkg ([] : List PackageRow) = 1 ∧
    nextDisplayOrderSpk ([] : List SpeakerRow) = 1 ∧
    (∀ m, maxDisplay (ps.map PackageRow.display_order) = some m →
       nextDisplayOrderPkg ps = m + 1) ∧
    (∀ m, maxDisplay (ss.map SpeakerRow.display_order) = some m →
       nextDisplayOrderSpk ss = m + 1) ∧
    (∀ r ∈ ps, r.display_order < nextDisplayOrderPkg ps) ∧
    (∀ r ∈ ss, r.display_order < nextDisplayOrderSpk ss) ∧
    (createPackage ps pnid pname pcategory pprice pfeatures ptype).getLast?
      = some { id := pnid, name := pname, category := pcategory, price := pprice,
               features := pfeatures, package_type := ptype,
               display_order := nextDisplayOrderPkg ps, is_active := true } ∧
    (createSpeaker ss snid sname stitle scompany sbio simage).getLast?
      = some { id := snid, name := sname, title := stitle, company := scompany,
               bio := sbio, image_url := simage,
               display_order := nextDisplayOrderSpk ss, is_active := true } := by
  refine ⟨rfl, rfl, ?_, ?_, ?_, ?_, ?_, ?_⟩
  · intro m hm
    simp [nextDisplayOrderPkg, hm]
  · intro m hm
    simp [nextDisplayOrderSpk, hm]
  · intro r hr
    obtain ⟨m, hm, hle⟩ :=
      le_maxDisplay (ps.map PackageRow.display_order) r.display_order
        (List.mem_map_of_mem PackageRow.display_order hr)
    rw [nextDisplayOrderPkg, hm]
    simpa using by omega
  · intro r hr
    obtain ⟨m, hm, hle⟩ :=
      le_maxDisplay (ss.map SpeakerRow.display_order) r.display_order
        (List.mem_map_of_mem SpeakerRow.display_order hr)
    rw [nextDisplayOrderSpk, hm]
    simpa using by omega
  · simp [createPackage]
  · simp [createSpeaker]

/-- Witness for claim C7: a concrete table with orders 2 and 1 appends the new
row with display_order 3, strictly after both. -/
theorem create_appends_next_display_order_witness :
    (createPackage [pkgA, pkgB] 3 "Leadership" "standard" 999 "[]" "standard").getLast?
      = some { id := 3, name := "Leadership", category := "standard", price := 999,
               features := "[]", package_type := "standard",
               display_order := nextDisplayOrderPkg [pkgA, pkgB], is_active := true } ∧
    (∀ r ∈ [pkgA, pkgB], r.display_order < nextDisplayOrderPkg [pkgA, pkgB]) ∧
    nextDisplayOrderSpk ([] : List SpeakerRow) = 1 := by
  have h := create_appends_next_display_order [pkgA, pkgB] [] 3 0 "Leadership"
    "standard" 999 "[]" "standard" "" "" "" "" ""
  exact ⟨h.2.2.2.2.2.2.1, h.2.2.2.2.1, h.2.1⟩

/-- Pending demo order row. -/
def pendingOrder7 : OrderRow :=
  { id := "7", customer_name := "Sam Roe", customer_email := "sam@x.com",
    customer_phone := "+919999999998", package_name := "Executive",
    amount := 599, status := "pending", payment_id := none,
    created_at := "2025-10-12" }

/-- Claim C10: the admin dashboard statistics are computed exclusively over
orders with status completed; an order in status pending contributes nothing
to total tickets, total revenue, or today's sales, wherever it sits in the
table. -/
theorem admin_stats_completed_only (store : List OrderRow) (today : String)
    (o : OrderRow) (ho : o.status = "pending") :
    adminStats (o :: store) today = adminStats store today ∧
    adminStats (store ++ [o]) today = adminStats store today ∧
    adminStats store today
      = ((store.filter (fun x => x.status == "completed")).length,
         ((store.filter (fun x => x.status == "completed")).map OrderRow.amount).sum,
         ((store.filter (fun x => x.status == "completed")).filter
            (fun x => x.created_at == today)).length) := by
  have hno : (o.status == "completed") = false := by rw [ho]; rfl
  refine ⟨?_, ?_, rfl⟩
  · simp [adminStats, List.filter, hno]
  · simp [adminStats, List.filter_append, List.filter, hno]

/-- Witness for claim C10: prepending a pending order to a one-row table of
completed orders leaves all three figures unchanged. -/
theorem admin_stats_completed_only_witness :
    adminStats [pendingOrder7, completedOrder42] "2025-10-12"
      = adminStats [completedOrder42] "2025-10-12" :=
  (admin_stats_completed_only [completedOrder42] "2025-10-12" pendingOrder7 rfl).1
